import Mathlib

/-!
# Verification of the client-server chat and file-transfer engine

Shallow embedding, in Lean 4, of the wire codec, the receive-loop frame
reassembly, the server-side `FileTransferHandler`, the client-side
`ClientFileTransferHandler`, `Client::SendChatMessage`, and the lock/event
structure of the server cleanup path, translated from the C++ sources
(`MessageSerialization.cpp`, `ClientHandler.cpp`, `Server.cpp`,
`FileTransferHandler.cpp`, `Client.cpp`, `ClientFileTransferHandler.cpp`).

Bytes are modelled as `Nat` values below 256; machine integers are `Int`
(for `int`) and `Nat` (for `size_t`) with explicit two's-complement and
`% 2 ^ 64` arithmetic at the points where the C++ fields are fixed-width.
-/

/-! ## Little-endian byte encoding of fixed-width fields

`SerializeMessage` copies the raw `MessageHeader` struct (memcpy).  On the
x86-64 LP64 target of this repository the struct layout is
`[type:int 0..4][sender_id:int 4..8][recipient_id:int 8..12][pad 12..16]
[payload_size:size_t 16..24]`, so `kMessageHeaderSize = 24`.  The four
padding bytes are modelled as zero; `DeserializeMessage` never reads them. -/

def toBytesLE : Nat → Nat → List Nat
  | 0, _ => []
  | w + 1, n => (n % 256) :: toBytesLE w (n / 256)

def fromBytesLE : List Nat → Nat
  | [] => 0
  | b :: bs => b + 256 * fromBytesLE bs

/-- Two's-complement encoding of a C `int` (32-bit little-endian). -/
def encodeInt32 (i : Int) : List Nat :=
  toBytesLE 4 ((i % (2 ^ 32 : Int)).toNat)

/-- Decoding of a 32-bit little-endian two's-complement `int`. -/
def decodeInt32 (bs : List Nat) : Int :=
  let n := fromBytesLE bs
  if n < 2 ^ 31 then (n : Int) else (n : Int) - 2 ^ 32

/-- Encoding of a `size_t` (64-bit little-endian). -/
def encodeNat64 (n : Nat) : List Nat :=
  toBytesLE 8 n

/-- Decoding of a 64-bit little-endian `size_t`. -/
def decodeNat64 (bs : List Nat) : Nat :=
  fromBytesLE bs

theorem toBytesLE_length (w n : Nat) : (toBytesLE w n).length = w := by
  induction w generalizing n with
  | zero => rfl
  | succ w ih => simp [toBytesLE, ih]

theorem fromBytesLE_toBytesLE (w n : Nat) (h : n < 256 ^ w) :
    fromBytesLE (toBytesLE w n) = n := by
  induction w generalizing n with
  | zero => simp [toBytesLE, fromBytesLE]; omega
  | succ w ih =>
      have hdiv : n / 256 < 256 ^ w := by
        rw [Nat.div_lt_iff_lt_mul (by norm_num)]
        calc n < 256 ^ (w + 1) := h
        _ = 256 ^ w * 256 := by ring
      simp [toBytesLE, fromBytesLE, ih _ hdiv]
      omega

theorem decodeInt32_encodeInt32 (i : Int) (h1 : -(2 ^ 31) ≤ i) (h2 : i < 2 ^ 31) :
    decodeInt32 (encodeInt32 i) = i := by
  unfold encodeInt32 decodeInt32
  have hlt : (i % (2 ^ 32 : Int)).toNat < 256 ^ 4 := by
    have := Int.emod_lt_of_pos i (b := (2 ^ 32 : Int)) (by norm_num)
    have := Int.emod_nonneg i (b := (2 ^ 32 : Int)) (by norm_num)
    norm_num
    omega
  rw [fromBytesLE_toBytesLE 4 _ hlt]
  dsimp only
  split <;> omega

/-! ## The Message data model (`Message.h`, `MessageType.h`) -/

/-! Enumerator values of `enum class MessageType : int`.  The header stores
the raw 32-bit value, so the field below is an `Int` and the enumerators are
named constants, exactly as the underlying machine representation. -/

namespace MessageType

def UNKNOWN : Int := 0

def CLIENT_ID_ASSIGNMENT : Int := 1

def BROADCAST_MESSAGE : Int := 2

def PRIVATE_MESSAGE : Int := 3

def FILE_TRANSFER_REQUEST : Int := 4

def FILE_DATA_CHUNK : Int := 5

def FILE_TRANSFER_COMPLETE : Int := 6

def FILE_TRANSFER_ERROR : Int := 7

end MessageType

/-- `struct MessageHeader { MessageType type; int sender_id; int recipient_id;
size_t payload_size; }`. -/
structure MessageHeader where
  type : Int
  sender_id : Int
  recipient_id : Int
  payload_size : Nat
deriving DecidableEq, Repr

/-- `struct Message { MessageHeader header; std::vector<char> payload; }`. -/
structure Message where
  header : MessageHeader
  payload : List Nat
deriving DecidableEq, Repr

/-- The default constructor `Message() : header({MessageType::UNKNOWN, -1, -1, 0})`. -/
def defaultMessage : Message :=
  { header := { type := MessageType.UNKNOWN, sender_id := -1, recipient_id := -1,
                payload_size := 0 },
    payload := [] }

/-- `sizeof(MessageHeader)` on the LP64 target: 4 + 4 + 4 + 4 (padding) + 8. -/
def kMessageHeaderSize : Nat := 24

/-- Helper used throughout the C++ code: build a message whose
`payload_size` is set to `payload.size()` after assigning the payload. -/
def mkMsg (t sid rid : Int) (payload : List Nat) : Message :=
  { header := { type := t, sender_id := sid, recipient_id := rid,
                payload_size := payload.length },
    payload := payload }

/-! ## WireCodec (`MessageSerialization.cpp`) -/

/-- The byte image `memcpy` produces from a `MessageHeader` (padding bytes
at offsets 12..16 taken as zero; `DeserializeMessage` never reads them). -/
def serializeHeader (h : MessageHeader) : List Nat :=
  encodeInt32 h.type ++ encodeInt32 h.sender_id ++ encodeInt32 h.recipient_id ++
    [0, 0, 0, 0] ++ encodeNat64 h.payload_size

/-- `SerializeMessage`: header bytes followed by the raw payload bytes. -/
def serializeMessage (m : Message) : List Nat :=
  serializeHeader m.header ++ m.payload

/-- The `memcpy(&message.header, data.data(), kMessageHeaderSize)` read of a
header from the first 24 bytes of `data`. -/
def deserializeHeader (data : List Nat) : MessageHeader :=
  { type := decodeInt32 (data.take 4),
    sender_id := decodeInt32 ((data.drop 4).take 4),
    recipient_id := decodeInt32 ((data.drop 8).take 4),
    payload_size := decodeNat64 ((data.drop 16).take 8) }

/-- `DeserializeMessage`.  On `data.size() < kMessageHeaderSize`, and on
`data.size() < kMessageHeaderSize + payload_size` (a `size_t` sum, hence the
`% 2 ^ 64`), the C++ function logs an error and returns a default-constructed
`Message`. -/
def deserializeMessage (data : List Nat) : Message :=
  if data.length < kMessageHeaderSize then defaultMessage
  else
    let h := deserializeHeader data
    if data.length < (kMessageHeaderSize + h.payload_size) % 2 ^ 64 then defaultMessage
    else { header := h, payload := (data.drop kMessageHeaderSize).take h.payload_size }

/-- The range invariants every C++ `Message` satisfies by virtue of its field
types: `type`, `sender_id`, `recipient_id` are 32-bit `int`s, every payload
entry is one byte, and the serialized frame size `kMessageHeaderSize +
payload_size` is representable as a `size_t` (otherwise
`SerializeMessage`'s `resize` call would already be undefined). -/
def WfMessage (m : Message) : Prop :=
  -(2 ^ 31) ≤ m.header.type ∧ m.header.type < 2 ^ 31 ∧
  -(2 ^ 31) ≤ m.header.sender_id ∧ m.header.sender_id < 2 ^ 31 ∧
  -(2 ^ 31) ≤ m.header.recipient_id ∧ m.header.recipient_id < 2 ^ 31 ∧
  kMessageHeaderSize + m.header.payload_size < 2 ^ 64 ∧
  ∀ b ∈ m.payload, b < 256

instance (m : Message) : Decidable (WfMessage m) := by
  unfold WfMessage; infer_instance

theorem encodeInt32_length (i : Int) : (encodeInt32 i).length = 4 := by
  simp [encodeInt32, toBytesLE_length]

theorem encodeNat64_length (n : Nat) : (encodeNat64 n).length = 8 := by
  simp [encodeNat64, toBytesLE_length]

theorem serializeHeader_length (h : MessageHeader) : (serializeHeader h).length = 24 := by
  simp [serializeHeader, encodeInt32_length, encodeNat64_length]

theorem serializeMessage_length (m : Message) :
    (serializeMessage m).length = kMessageHeaderSize + m.payload.length := by
  simp [serializeMessage, serializeHeader_length, kMessageHeaderSize]

theorem decodeNat64_encodeNat64 (n : Nat) (h : n < 2 ^ 64) :
    decodeNat64 (encodeNat64 n) = n := by
  unfold decodeNat64 encodeNat64
  exact fromBytesLE_toBytesLE 8 n (by norm_num at h ⊢; omega)

/-- Reading the header back from `serializeHeader h ++ tail` recovers the
fields, for in-range field values. -/
theorem deserializeHeader_serializeHeader (h : MessageHeader) (tail : List Nat)
    (h1 : -(2 ^ 31) ≤ h.type) (h2 : h.type < 2 ^ 31)
    (h3 : -(2 ^ 31) ≤ h.sender_id) (h4 : h.sender_id < 2 ^ 31)
    (h5 : -(2 ^ 31) ≤ h.recipient_id) (h6 : h.recipient_id < 2 ^ 31)
    (h7 : h.payload_size < 2 ^ 64) :
    deserializeHeader (serializeHeader h ++ tail) = h := by
  have e1 : (encodeInt32 h.type).length = 4 := encodeInt32_length _
  have e2 : (encodeInt32 h.sender_id).length = 4 := encodeInt32_length _
  have e4 : (encodeNat64 h.payload_size).length = 8 := encodeNat64_length _
  have len8 : (encodeInt32 h.type ++ encodeInt32 h.sender_id).length = 8 := by
    simp [encodeInt32_length]
  have len16 : ((encodeInt32 h.type ++ encodeInt32 h.sender_id) ++
      (encodeInt32 h.recipient_id ++ [0, 0, 0, 0])).length = 16 := by
    simp [encodeInt32_length]
  have t1 : (serializeHeader h ++ tail).take 4 = encodeInt32 h.type := by
    rw [show serializeHeader h ++ tail = encodeInt32 h.type ++ (encodeInt32 h.sender_id ++
      (encodeInt32 h.recipient_id ++ ([0, 0, 0, 0] ++ (encodeNat64 h.payload_size ++ tail))))
      from by simp [serializeHeader]]
    exact List.take_left' e1
  have t2 : ((serializeHeader h ++ tail).drop 4).take 4 = encodeInt32 h.sender_id := by
    rw [show serializeHeader h ++ tail = encodeInt32 h.type ++ (encodeInt32 h.sender_id ++
      (encodeInt32 h.recipient_id ++ ([0, 0, 0, 0] ++ (encodeNat64 h.payload_size ++ tail))))
      from by simp [serializeHeader], List.drop_left' e1]
    exact List.take_left' e2
  have t3 : ((serializeHeader h ++ tail).drop 8).take 4 = encodeInt32 h.recipient_id := by
    rw [show serializeHeader h ++ tail = (encodeInt32 h.type ++ encodeInt32 h.sender_id) ++
      (encodeInt32 h.recipient_id ++ ([0, 0, 0, 0] ++ (encodeNat64 h.payload_size ++ tail)))
      from by simp [serializeHeader], List.drop_left' len8]
    exact List.take_left' (encodeInt32_length _)
  have t4 : ((serializeHeader h ++ tail).drop 16).take 8 = encodeNat64 h.payload_size := by
    rw [show serializeHeader h ++ tail = ((encodeInt32 h.type ++ encodeInt32 h.sender_id) ++
      (encodeInt32 h.recipient_id ++ [0, 0, 0, 0])) ++ (encodeNat64 h.payload_size ++ tail)
      from by simp [serializeHeader], List.drop_left' len16]
    exact List.take_left' e4
  unfold deserializeHeader
  rw [t1, t2, t3, t4, decodeInt32_encodeInt32 _ h1 h2, decodeInt32_encodeInt32 _ h3 h4,
    decodeInt32_encodeInt32 _ h5 h6, decodeNat64_encodeNat64 _ h7]

/-- Round trip of the wire codec, used both for claim C2 and inside the
framing proofs. -/
theorem serialize_roundtrip (m : Message) (hwf : WfMessage m)
    (hps : m.header.payload_size = m.payload.length) :
    deserializeMessage (serializeMessage m) = m := by
  obtain ⟨w1, w2, w3, w4, w5, w6, w7, -⟩ := hwf
  have hps64 : m.header.payload_size < 2 ^ 64 := by
    have hk : kMessageHeaderSize = 24 := rfl
    omega
  have hhdr : deserializeHeader (serializeMessage m) = m.header :=
    deserializeHeader_serializeHeader m.header m.payload w1 w2 w3 w4 w5 w6 hps64
  have hlen : (serializeMessage m).length = kMessageHeaderSize + m.payload.length :=
    serializeMessage_length m
  have hmod : (kMessageHeaderSize + m.header.payload_size) % 2 ^ 64
      = kMessageHeaderSize + m.header.payload_size := Nat.mod_eq_of_lt w7
  have hsl : (serializeHeader m.header).length = kMessageHeaderSize :=
    serializeHeader_length m.header
  have hdrop : (serializeMessage m).drop kMessageHeaderSize = m.payload :=
    List.drop_left' hsl
  unfold deserializeMessage
  rw [hlen, hhdr]
  rw [if_neg (by omega)]
  dsimp only
  rw [hmod]
  rw [if_neg (by omega)]
  rw [hdrop, hps, List.take_length]

/-- C2: For every Message M whose header `payload_size` equals the byte length
of its payload, `DeserializeMessage (SerializeMessage M)` equals `M`: same
kind, same sender id, same recipient id, and identical payload bytes. -/
theorem C2_deserialize_serialize_id (m : Message) (hwf : WfMessage m)
    (hps : m.header.payload_size = m.payload.length) :
    deserializeMessage (serializeMessage m) = m :=
  serialize_roundtrip m hwf hps

def msgC2 : Message := mkMsg MessageType.BROADCAST_MESSAGE 1 (-1) [104, 105]

/-- Witness for C2 at a concrete two-byte broadcast message. -/
theorem C2_deserialize_serialize_id_witness :
    WfMessage msgC2 ∧ msgC2.header.payload_size = msgC2.payload.length ∧
    deserializeMessage (serializeMessage msgC2) = msgC2 :=
  ⟨by decide, by decide, C2_deserialize_serialize_id msgC2 (by decide) (by decide)⟩

/-- C8 counterexample: `DeserializeMessage` does not fail with a
`MalformedMessage` error on malformed input — there is no error channel at
all.  The one-byte input `[0]` (shorter than the header) decodes to the very
same ordinary `Message` value that a successful decode of the serialized
default message produces, so a caller cannot distinguish failure from
success, and no `MalformedMessage` error is reported. -/
theorem C8_no_malformed_error_counterexample :
    deserializeMessage [0] = defaultMessage ∧
    deserializeMessage (serializeMessage defaultMessage) = defaultMessage := by
  exact ⟨by decide, by decide⟩

/-- C8 as amended: decoding an input shorter than the fixed header length, or
whose declared payload size exceeds the bytes available after the header,
returns the default-constructed Message (kind UNKNOWN, both ids -1, empty
payload) and logs an error; it never returns a partially populated Message
(header fields copied from the input with a truncated payload). -/
theorem C8_short_input_returns_default (data : List Nat)
    (h : data.length < kMessageHeaderSize ∨
      data.length < (kMessageHeaderSize + (deserializeHeader data).payload_size) % 2 ^ 64) :
    deserializeMessage data = defaultMessage := by
  unfold deserializeMessage
  by_cases h1 : data.length < kMessageHeaderSize
  · rw [if_pos h1]
  · rw [if_neg h1]
    dsimp only
    rcases h with h | h
    · exact absurd h h1
    · rw [if_pos h]

/-- Witness for C8's amended statement at the one-byte input `[0]`. -/
theorem C8_short_input_returns_default_witness :
    (([0] : List Nat).length < kMessageHeaderSize ∨
      ([0] : List Nat).length <
        (kMessageHeaderSize + (deserializeHeader [0]).payload_size) % 2 ^ 64) ∧
    deserializeMessage [0] = defaultMessage :=
  ⟨Or.inl (by decide), C8_short_input_returns_default [0] (Or.inl (by decide))⟩

/-! ## FrameAssembler: the receive-loop reassembly
(`ClientHandler::Run`, `Client::ReceiveMessages`)

Both receive loops accumulate bytes in `receive_buffer_` and then run the
same inner `while` loop: while the buffer holds at least a header, peek the
header's `payload_size`, and if the buffer holds `kMessageHeaderSize +
payload_size` bytes, slice off that frame, deserialize it, erase it from the
buffer, and process the message; otherwise wait for more data.
`processBuffer` is that inner loop; it returns the messages processed (in
order) and the remaining buffer.  The C++ `total_message_size` sum is a
`size_t`, hence the `% 2 ^ 64`.  The extra `0 < total` guard terminates the
one situation (`payload_size = 2 ^ 64 - kMessageHeaderSize`, a frame that
cannot arise from `SerializeMessage`) in which the C++ loop would erase zero
bytes and spin forever; for every buffer built from serialized frames the
guard is always true and the definition matches the source exactly. -/

def processBuffer (buf : List Nat) : List Message × List Nat :=
  if kMessageHeaderSize ≤ buf.length then
    let ps := decodeNat64 ((buf.drop 16).take 8)
    let total := (kMessageHeaderSize + ps) % 2 ^ 64
    if _h2 : total ≤ buf.length ∧ 0 < total then
      let r := processBuffer (buf.drop total)
      (deserializeMessage (buf.take total) :: r.1, r.2)
    else ([], buf)
  else ([], buf)
termination_by buf.length
decreasing_by
  simp only [List.length_drop]
  omega

/-- One `Receive` call of the loop: append the freshly received chunk to the
buffer and run the extraction loop. -/
def feedChunk (buf chunk : List Nat) : List Message × List Nat :=
  processBuffer (buf ++ chunk)

/-- Feed a sequence of received chunks in order, collecting every message the
loop processes. -/
def feedAll (buf : List Nat) : List (List Nat) → List Message × List Nat
  | [] => ([], buf)
  | c :: cs =>
      let r1 := feedChunk buf c
      let r2 := feedAll r1.2 cs
      (r1.1 ++ r2.1, r2.2)

theorem processBuffer_nil : processBuffer [] = ([], []) := by
  rw [processBuffer]
  simp [kMessageHeaderSize]

/-- Peeking the `payload_size` field out of a buffer whose first 24 bytes are
`serializeHeader h`. -/
theorem peek_payload_size (h : MessageHeader) (tail : List Nat)
    (hps : h.payload_size < 2 ^ 64) :
    decodeNat64 (((serializeHeader h ++ tail).drop 16).take 8) = h.payload_size := by
  have len16 : ((encodeInt32 h.type ++ encodeInt32 h.sender_id) ++
      (encodeInt32 h.recipient_id ++ [0, 0, 0, 0])).length = 16 := by
    simp [encodeInt32_length]
  rw [show serializeHeader h ++ tail = ((encodeInt32 h.type ++ encodeInt32 h.sender_id) ++
      (encodeInt32 h.recipient_id ++ [0, 0, 0, 0])) ++ (encodeNat64 h.payload_size ++ tail)
      from by simp [serializeHeader], List.drop_left' len16,
    List.take_left' (encodeNat64_length _)]
  exact decodeNat64_encodeNat64 _ hps

/-- Extraction step: a buffer that starts with one complete serialized frame
yields that frame's message and continues on the rest. -/
theorem processBuffer_cons_frame (m : Message) (hwf : WfMessage m)
    (hps : m.header.payload_size = m.payload.length) (rest : List Nat) :
    processBuffer (serializeMessage m ++ rest) =
      (m :: (processBuffer rest).1, (processBuffer rest).2) := by
  have w7 : kMessageHeaderSize + m.header.payload_size < 2 ^ 64 := hwf.2.2.2.2.2.2.1
  have hk : kMessageHeaderSize = 24 := rfl
  have hps64 : m.header.payload_size < 2 ^ 64 := by omega
  have hflen : (serializeMessage m).length = kMessageHeaderSize + m.header.payload_size := by
    rw [serializeMessage_length, hps]
  have hlen : (serializeMessage m ++ rest).length
      = kMessageHeaderSize + m.header.payload_size + rest.length := by
    rw [List.length_append, hflen]
  have hpeek : decodeNat64 (((serializeMessage m ++ rest).drop 16).take 8)
      = m.header.payload_size := by
    rw [show serializeMessage m ++ rest = serializeHeader m.header ++ (m.payload ++ rest)
      from by simp [serializeMessage]]
    exact peek_payload_size m.header (m.payload ++ rest) hps64
  have hmod : (kMessageHeaderSize + m.header.payload_size) % 2 ^ 64
      = kMessageHeaderSize + m.header.payload_size := Nat.mod_eq_of_lt w7
  rw [processBuffer]
  rw [if_pos (by omega)]
  dsimp only
  rw [hpeek, hmod]
  rw [dif_pos (by constructor <;> omega)]
  rw [List.take_left' hflen, List.drop_left' hflen,
    serialize_roundtrip m hwf hps]

theorem serializeHeader_drop16 (h : MessageHeader) :
    (serializeHeader h).drop 16 = encodeNat64 h.payload_size := by
  have len16 : ((encodeInt32 h.type ++ encodeInt32 h.sender_id) ++
      (encodeInt32 h.recipient_id ++ [0, 0, 0, 0])).length = 16 := by
    simp [encodeInt32_length]
  rw [show serializeHeader h = ((encodeInt32 h.type ++ encodeInt32 h.sender_id) ++
      (encodeInt32 h.recipient_id ++ [0, 0, 0, 0])) ++ encodeNat64 h.payload_size
      from by simp [serializeHeader], List.drop_left' len16]

/-- No-extraction step: a buffer that is a strict prefix of a serialized
frame yields nothing and is kept intact, waiting for more data. -/
theorem processBuffer_partial (m : Message) (hwf : WfMessage m)
    (hps : m.header.payload_size = m.payload.length) (p q : List Nat)
    (hpq : p ++ q = serializeMessage m) (hq : q ≠ []) :
    processBuffer p = ([], p) := by
  have hk : kMessageHeaderSize = 24 := rfl
  have w7 : kMessageHeaderSize + m.header.payload_size < 2 ^ 64 := hwf.2.2.2.2.2.2.1
  have hps64 : m.header.payload_size < 2 ^ 64 := by omega
  have hflen : (serializeMessage m).length = kMessageHeaderSize + m.header.payload_size := by
    rw [serializeMessage_length, hps]
  have hsum : p.length + q.length = kMessageHeaderSize + m.header.payload_size := by
    have := congrArg List.length hpq
    simp only [List.length_append] at this
    rw [this, hflen]
  have hqpos : 0 < q.length := List.length_pos.mpr hq
  by_cases hlt : p.length < kMessageHeaderSize
  · rw [processBuffer, if_neg (by omega)]
  · have h24 : kMessageHeaderSize ≤ p.length := by omega
    have htake : p.take kMessageHeaderSize = serializeHeader m.header := by
      have h1 : (p ++ q).take kMessageHeaderSize = p.take kMessageHeaderSize :=
        List.take_append_of_le_length h24
      have h2 : (p ++ q).take kMessageHeaderSize = serializeHeader m.header := by
        rw [hpq, show serializeMessage m = serializeHeader m.header ++ m.payload from rfl]
        exact List.take_left' (serializeHeader_length m.header)
      rw [← h1, h2]
    have hpeek : decodeNat64 ((p.drop 16).take 8) = m.header.payload_size := by
      have e : (p.take 24).drop 16 = (p.drop 16).take 8 := by rw [List.drop_take]
      rw [← e, show (24 : Nat) = kMessageHeaderSize from rfl, htake,
        serializeHeader_drop16]
      exact decodeNat64_encodeNat64 _ hps64
    have hmod : (kMessageHeaderSize + m.header.payload_size) % 2 ^ 64
        = kMessageHeaderSize + m.header.payload_size := Nat.mod_eq_of_lt w7
    rw [processBuffer, if_pos h24]
    dsimp only
    rw [hpeek, hmod, dif_neg (by omega)]

theorem feedAll_join_nil (cs : List (List Nat)) (h : cs.flatten = []) :
    feedAll [] cs = ([], []) := by
  induction cs with
  | nil => rfl
  | cons c cs ih =>
      simp only [List.flatten_cons, List.append_eq_nil] at h
      simp [feedAll, feedChunk, h.1, processBuffer_nil, ih h.2]

/-- Feeding chunk prefixes that do not yet complete the frame yields no
message and just accumulates the bytes. -/
theorem feedAll_strict (m : Message) (hwf : WfMessage m)
    (hps : m.header.payload_size = m.payload.length) (p : List (List Nat)) :
    ∀ st q, st ++ (p.flatten ++ q) = serializeMessage m → q ≠ [] →
      feedAll st p = ([], st ++ p.flatten) := by
  induction p with
  | nil => intro st q h hq; simp [feedAll]
  | cons c p ih =>
      intro st q h hq
      have h' : (st ++ c) ++ (p.flatten ++ q) = serializeMessage m := by
        simpa [List.flatten_cons, List.append_assoc] using h
      have hq' : p.flatten ++ q ≠ [] := by
        intro hcon
        exact hq (List.append_eq_nil.mp hcon).2
      have h1 : processBuffer (st ++ c) = ([], st ++ c) :=
        processBuffer_partial m hwf hps (st ++ c) (p.flatten ++ q) h' hq'
      simp [feedAll, feedChunk, h1, ih (st ++ c) q h' hq, List.flatten_cons,
        List.append_assoc]

/-- Once the fed bytes complete the frame, exactly the one message comes out
and the buffer is empty. -/
theorem feedAll_complete (m : Message) (hwf : WfMessage m)
    (hps : m.header.payload_size = m.payload.length) (p : List (List Nat)) :
    ∀ st, st ++ p.flatten = serializeMessage m → st.length < (serializeMessage m).length →
      feedAll st p = ([m], []) := by
  induction p with
  | nil =>
      intro st h hlen
      rw [List.flatten_nil, List.append_nil] at h
      rw [h] at hlen
      exact absurd hlen (lt_irrefl _)
  | cons c p ih =>
      intro st h hlen
      have h' : (st ++ c) ++ p.flatten = serializeMessage m := by
        simpa [List.flatten_cons, List.append_assoc] using h
      by_cases hj : p.flatten = []
      · have hfull : st ++ c = serializeMessage m := by
          rw [hj, List.append_nil] at h'
          exact h'
        have h1 : processBuffer (st ++ c) = ([m], []) := by
          rw [hfull, ← List.append_nil (serializeMessage m),
            processBuffer_cons_frame m hwf hps [], processBuffer_nil]
        simp [feedAll, feedChunk, h1, feedAll_join_nil p hj]
      · have hlen' : (st ++ c).length < (serializeMessage m).length := by
          have h2 := congrArg List.length h'
          simp only [List.length_append] at h2 ⊢
          have hjpos : 0 < p.flatten.length := List.length_pos.mpr hj
          omega
        have h1 : processBuffer (st ++ c) = ([], st ++ c) :=
          processBuffer_partial m hwf hps (st ++ c) p.flatten h' hj
        simp [feedAll, feedChunk, h1, ih (st ++ c) h' hlen']

/-- C3: For every complete encoded Message and every partition of its bytes
into N consecutive sub-chunks, feeding the chunks in order to the
receive-loop reassembly buffer yields exactly one decoded Message equal to
the original after all chunks are fed, and no Message is yielded before the
chunk that completes the frame; when one feed contains two complete
concatenated Messages, both are yielded, in order, during that feed. -/
theorem C3_frame_reassembly (m m1 m2 : Message) (cs : List (List Nat))
    (hwf : WfMessage m) (hps : m.header.payload_size = m.payload.length)
    (hcs : cs.flatten = serializeMessage m)
    (hwf1 : WfMessage m1) (hps1 : m1.header.payload_size = m1.payload.length)
    (hwf2 : WfMessage m2) (hps2 : m2.header.payload_size = m2.payload.length) :
    feedAll [] cs = ([m], []) ∧
    (∀ p q, p ++ q = cs → p.flatten ≠ serializeMessage m →
      feedAll [] p = ([], p.flatten)) ∧
    feedChunk [] (serializeMessage m1 ++ serializeMessage m2) = ([m1, m2], []) := by
  have hk : kMessageHeaderSize = 24 := rfl
  refine ⟨?_, ?_, ?_⟩
  · have h0 : ([] : List Nat) ++ cs.flatten = serializeMessage m := by
      rw [List.nil_append, hcs]
    have hpos : ([] : List Nat).length < (serializeMessage m).length := by
      rw [serializeMessage_length]
      simp
      omega
    exact feedAll_complete m hwf hps cs [] h0 hpos
  · intro p q hpq hnefull
    have hjoin : p.flatten ++ q.flatten = serializeMessage m := by
      rw [← List.flatten_append, hpq, hcs]
    have hqne : q.flatten ≠ [] := by
      intro hcon
      rw [hcon, List.append_nil] at hjoin
      exact hnefull hjoin
    have := feedAll_strict m hwf hps p [] q.flatten (by simpa using hjoin) hqne
    simpa using this
  · unfold feedChunk
    rw [List.nil_append, processBuffer_cons_frame m1 hwf1 hps1,
      ← List.append_nil (serializeMessage m2),
      processBuffer_cons_frame m2 hwf2 hps2 [], processBuffer_nil]

def msgC3 : Message := mkMsg MessageType.PRIVATE_MESSAGE 2 3 [1, 2, 3]

def csC3 : List (List Nat) := [(serializeMessage msgC3).take 10, (serializeMessage msgC3).drop 10]

def msgC3a : Message := mkMsg MessageType.FILE_DATA_CHUNK 1 2 [9]

def msgC3b : Message := mkMsg MessageType.FILE_TRANSFER_COMPLETE 1 2 []

/-- Witness for C3: a 27-byte frame split at byte 10, plus a two-frame feed. -/
theorem C3_frame_reassembly_witness :
    WfMessage msgC3 ∧ msgC3.header.payload_size = msgC3.payload.length ∧
    csC3.flatten = serializeMessage msgC3 ∧
    (feedAll [] csC3 = ([msgC3], []) ∧
     (∀ p q, p ++ q = csC3 → p.flatten ≠ serializeMessage msgC3 →
       feedAll [] p = ([], p.flatten)) ∧
     feedChunk [] (serializeMessage msgC3a ++ serializeMessage msgC3b) = ([msgC3a, msgC3b], [])) :=
  ⟨by decide, by decide, by simp [csC3],
   C3_frame_reassembly msgC3 msgC3a msgC3b csC3 (by decide) (by decide) (by simp [csC3])
     (by decide) (by decide) (by decide) (by decide)⟩

/-! ## Shared string and number parsing helpers

The transfer-request payload is the text `"<recipientId>:<fileName>:<fileSize>"`.
The handler code slices it with `std::string::find(':')`/`substr` and converts
the numeric parts with `std::stoi` / `std::stoull` (which throw on input
without leading digits and on out-of-range values; `stoull` accepts a leading
sign, negating modulo 2^64).  Strings are modelled as byte lists; `:` is 58,
`/` is 47. -/

def strBytes (s : String) : List Nat := s.data.map Char.toNat

def isAsciiDigit (b : Nat) : Bool := decide (48 ≤ b ∧ b ≤ 57)

def isAsciiSpace (b : Nat) : Bool := decide (b = 32 ∨ (9 ≤ b ∧ b ≤ 13))

def digitsToNat (ds : List Nat) : Nat := ds.foldl (fun a b => a * 10 + (b - 48)) 0

/-- Model of `std::stoi`: optional whitespace, optional sign, at least one
digit, result within `int` range (otherwise it throws, modelled as `none`). -/
def parseStoi (l : List Nat) : Option Int :=
  let l1 := l.dropWhile isAsciiSpace
  let signed : Bool × List Nat :=
    match l1 with
    | 45 :: r => (true, r)
    | 43 :: r => (false, r)
    | _ => (false, l1)
  let ds := signed.2.takeWhile isAsciiDigit
  if ds.isEmpty then none
  else
    let v : Int := if signed.1 then -(digitsToNat ds : Int) else (digitsToNat ds : Int)
    if v < -(2 ^ 31) ∨ 2 ^ 31 ≤ v then none else some v

/-- Model of `std::stoull`: as `parseStoi` but unsigned 64-bit, a leading
minus sign negating modulo `2 ^ 64`. -/
def parseStoull (l : List Nat) : Option Nat :=
  let l1 := l.dropWhile isAsciiSpace
  let signed : Bool × List Nat :=
    match l1 with
    | 45 :: r => (true, r)
    | 43 :: r => (false, r)
    | _ => (false, l1)
  let ds := signed.2.takeWhile isAsciiDigit
  if ds.isEmpty then none
  else
    let v := digitsToNat ds
    if 2 ^ 64 ≤ v then none
    else some (if signed.1 then (2 ^ 64 - v) % 2 ^ 64 else v)

/-- Outcome of the server handler's payload parse: the two-colon format check
(`formatErr` covers `find(':') == npos`), the `stoi`/`stoull` exceptions
(`numErr`, caught and answered with a generic processing error), or the
parsed `recipient_id : file_name : file_size`. -/
inductive ServerReqParse where
  | formatErr
  | numErr
  | ok (rid : Int) (fname : List Nat) (fsize : Nat)
deriving DecidableEq, Repr

def parseServerRequestPayload (payload : List Nat) : ServerReqParse :=
  match List.findIdx? (fun b => b == 58) payload with
  | none => .formatErr
  | some i =>
    match List.findIdx? (fun b => b == 58) (payload.drop (i + 1)) with
    | none => .formatErr
    | some j =>
      match parseStoi (payload.take i), parseStoull (payload.drop (i + 1 + j + 1)) with
      | some rid, some sz => .ok rid ((payload.drop (i + 1)).take j) sz
      | _, _ => .numErr

/-- The client handler parses the same payload but only extracts the file
name and size (it already knows it is the recipient). -/
inductive ClientReqParse where
  | formatErr
  | numErr
  | ok (fname : List Nat) (fsize : Nat)
deriving DecidableEq, Repr

def parseClientRequestPayload (payload : List Nat) : ClientReqParse :=
  match List.findIdx? (fun b => b == 58) payload with
  | none => .formatErr
  | some i =>
    match List.findIdx? (fun b => b == 58) (payload.drop (i + 1)) with
    | none => .formatErr
    | some j =>
      match parseStoull (payload.drop (i + 1 + j + 1)) with
      | some sz => .ok ((payload.drop (i + 1)).take j) sz
      | none => .numErr

/-! ## Client-side state (`Client.cpp`, `ClientFileTransferHandler.cpp`)

The `Client` object and its `ClientFileTransferHandler` share one send queue,
one atomic client id and one socket; everything externally observable about
them is collected in `ClientState`.  The filesystem and the destination
`ofstream` are external collaborators, provided as an environment. -/

/-- What `std::filesystem` and `std::ifstream` can report about one path:
whether it is a regular file, its size, and its contents. -/
structure FileRecord where
  isRegular : Bool
  size : Nat
  data : List Nat
deriving DecidableEq, Repr

/-- Environment of the client handler: `readFile path` is `none` when
`std::filesystem::exists` is false, and `openWriteOk` tells whether creating
the destination `ofstream` (after `create_directories`) succeeds. -/
structure ClientEnv where
  readFile : List Nat → Option FileRecord
  openWriteOk : List Nat → Bool

/-- `ClientFileTransferHandler::OutgoingFileTransfer` plus the read cursor of
its `ifstream` (`streamOpen`/`streamPos` model `file_stream`). -/
structure OutgoingFileTransfer where
  file_path : List Nat
  total_size : Nat
  sent_size : Nat
  streamOpen : Bool
  streamPos : Nat
  recipient_id : Int
deriving DecidableEq, Repr

/-- `ClientFileTransferHandler::IncomingFileTransfer` (`streamOpen` models
`file_stream.is_open()`). -/
structure ClientIncomingTransfer where
  file_name : List Nat
  total_size : Nat
  received_size : Nat
  streamOpen : Bool
  sender_id : Int
deriving DecidableEq, Repr

/-- Shared observable state of `Client` and its `ClientFileTransferHandler`:
the atomic `client_id_` (-1 until `ID_ASSIGNMENT`), socket validity, the
send queue, and the single outbound and inbound transfer slots. -/
structure ClientState where
  clientId : Int
  socketValid : Bool
  sendQueue : List Message
  outgoing : Option OutgoingFileTransfer
  incoming : Option ClientIncomingTransfer
deriving DecidableEq, Repr

/-- `ClientFileTransferHandler::AddMessageToSendQueue`: push under the queue
lock, notify, unconditionally return true. -/
def addMessageToSendQueue (st : ClientState) (m : Message) : Bool × ClientState :=
  (true, { st with sendQueue := st.sendQueue ++ [m] })

/-- `const size_t kFileChunkSize = 4096`. -/
def kFileChunkSize : Nat := 4096

/-- `std::filesystem::path::filename()`: the component after the last `/`. -/
def fileNameOf (path : List Nat) : List Nat :=
  (path.reverse.takeWhile (fun b => b != 47)).reverse

/-- The error-reply pattern repeated throughout the client handler: a
`FILE_TRANSFER_ERROR` from this client to the original sender. -/
def clientErrorMsg (sid rid : Int) (text : String) : Message :=
  mkMsg MessageType.FILE_TRANSFER_ERROR sid rid (strBytes text)

/-- `Client::SendChatMessage`: refuse when the socket is missing/invalid or
no id has been assigned yet; otherwise enqueue one BROADCAST message. -/
def sendChatMessage (st : ClientState) (text : List Nat) : Bool × ClientState :=
  if st.socketValid = false ∨ st.clientId = -1 then (false, st)
  else
    let chatMsg := mkMsg MessageType.BROADCAST_MESSAGE st.clientId (-1) text
    (true, { st with sendQueue := st.sendQueue ++ [chatMsg] })

/-- `ClientFileTransferHandler::RequestFileTransfer`. -/
def requestFileTransfer (env : ClientEnv) (st : ClientState) (rid : Int)
    (path : List Nat) : Bool × ClientState :=
  if st.clientId = -1 then (false, st)
  else if st.outgoing.isSome then (false, st)
  else
    match env.readFile path with
    | none => (false, st)
    | some f =>
      if f.isRegular = false then (false, st)
      else
        let fname := fileNameOf path
        let payload := strBytes (toString rid) ++ [58] ++ fname ++ [58] ++
          strBytes (toString f.size)
        let reqMsg := mkMsg MessageType.FILE_TRANSFER_REQUEST st.clientId rid payload
        let r := addMessageToSendQueue st reqMsg
        if r.1 then
          let newOut : OutgoingFileTransfer :=
            { file_path := path, total_size := f.size, sent_size := 0,
              streamOpen := false, streamPos := 0, recipient_id := rid }
          (true, { r.2 with outgoing := some newOut })
        else (false, r.2)

/-- `ClientFileTransferHandler::HandleFileTransferRequest` (the inbound
side: this client is asked to receive a file; also the code path that runs
when the READY acknowledgment text arrives back at the original sender). -/
def clientHandleFileTransferRequest (env : ClientEnv) (st : ClientState)
    (msg : Message) : ClientState :=
  if msg.header.recipient_id ≠ st.clientId then st
  else if msg.payload.isEmpty then st
  else
    match parseClientRequestPayload msg.payload with
    | .formatErr => st
    | .numErr =>
        (addMessageToSendQueue st (clientErrorMsg st.clientId msg.header.sender_id
          "Error processing file transfer request.")).2
    | .ok fname fsize =>
        if st.incoming.isSome then
          (addMessageToSendQueue st (clientErrorMsg st.clientId msg.header.sender_id
            "Recipient is busy with another transfer.")).2
        else
          let uniqueName := strBytes "client_incoming_files/" ++
            strBytes (toString msg.header.sender_id) ++ strBytes "_" ++ fname
          if env.openWriteOk uniqueName = false then
            (addMessageToSendQueue st (clientErrorMsg st.clientId msg.header.sender_id
              "Recipient failed to open file for writing.")).2
          else
            let newInc : ClientIncomingTransfer :=
              { file_name := fname, total_size := fsize, received_size := 0,
                streamOpen := true, sender_id := msg.header.sender_id }
            let st1 := { st with incoming := some newInc }
            (addMessageToSendQueue st1 (mkMsg MessageType.FILE_TRANSFER_REQUEST
              st.clientId msg.header.sender_id (strBytes "READY"))).2

/-- `ClientFileTransferHandler::HandleFileDataChunk`. -/
def clientHandleFileDataChunk (st : ClientState) (msg : Message) : ClientState :=
  match st.incoming with
  | some i =>
      if i.sender_id = msg.header.sender_id then
        if i.streamOpen then
          let upd := { i with received_size := i.received_size + msg.payload.length }
          { st with incoming := some upd }
        else
          let st1 := (addMessageToSendQueue st (clientErrorMsg st.clientId
            msg.header.sender_id "Recipient file stream not open.")).2
          { st1 with incoming := none }
      else st
  | none => st

/-- `ClientFileTransferHandler::HandleFileTransferComplete`. -/
def clientHandleFileTransferComplete (st : ClientState) (msg : Message) : ClientState :=
  match st.incoming with
  | some i =>
      if i.sender_id = msg.header.sender_id then
        if i.received_size ≠ i.total_size then
          let st1 := (addMessageToSendQueue st (clientErrorMsg st.clientId
            msg.header.sender_id "Received file size mismatch.")).2
          { st1 with incoming := none }
        else { st with incoming := none }
      else st
  | none => st

/-- `ClientFileTransferHandler::HandleFileTransferError`. -/
def clientHandleFileTransferError (st : ClientState) (msg : Message) : ClientState :=
  let st1 :=
    match st.outgoing with
    | some o =>
        if o.recipient_id = msg.header.sender_id then { st with outgoing := none } else st
    | none => st
  match st1.incoming with
  | some i =>
      if i.sender_id = msg.header.sender_id then { st1 with incoming := none } else st1
  | none => st1

/-- `ClientFileTransferHandler::HandleMessage`: the addressee filter and the
dispatch on message type. -/
def clientHandleMessage (env : ClientEnv) (st : ClientState) (msg : Message) : ClientState :=
  if msg.header.recipient_id ≠ st.clientId ∧ msg.header.recipient_id ≠ -1 ∧
      msg.header.sender_id ≠ -1 then st
  else if msg.header.type = MessageType.FILE_TRANSFER_REQUEST then
    clientHandleFileTransferRequest env st msg
  else if msg.header.type = MessageType.FILE_DATA_CHUNK then
    clientHandleFileDataChunk st msg
  else if msg.header.type = MessageType.FILE_TRANSFER_COMPLETE then
    clientHandleFileTransferComplete st msg
  else if msg.header.type = MessageType.FILE_TRANSFER_ERROR then
    clientHandleFileTransferError st msg
  else st

/-- `ClientFileTransferHandler::SendNextFileChunkToQueue`.  The stream read
is modelled from the file contents at the cursor (`gcount` is the number of
bytes actually obtained); the `fail()`-without-`eof()` branch of the C++
code concerns stream I/O failure, which the file model cannot produce. -/
def sendNextFileChunkToQueue (env : ClientEnv) (st : ClientState) : Bool × ClientState :=
  match st.outgoing with
  | none => (false, st)
  | some ot =>
    if ot.streamOpen = true ∧ ot.sent_size < ot.total_size then
      let bytesToRead := min kFileChunkSize (ot.total_size - ot.sent_size)
      let fileData :=
        match env.readFile ot.file_path with
        | some f => f.data
        | none => []
      let chunk := (fileData.drop ot.streamPos).take bytesToRead
      if 0 < chunk.length then
        let chunkMsg := mkMsg MessageType.FILE_DATA_CHUNK st.clientId ot.recipient_id chunk
        let r := addMessageToSendQueue st chunkMsg
        if r.1 then
          let ot1 := { ot with sent_size := ot.sent_size + chunk.length,
                               streamPos := ot.streamPos + chunk.length }
          if ot1.sent_size = ot1.total_size then
            let completeMsg : Message :=
              { header := { type := MessageType.FILE_TRANSFER_COMPLETE,
                            sender_id := r.2.clientId,
                            recipient_id := ot.recipient_id, payload_size := 0 },
                payload := [] }
            let r2 := addMessageToSendQueue r.2 completeMsg
            (true, { r2.2 with outgoing := none })
          else (true, { r.2 with outgoing := some ot1 })
        else
          let r3 := addMessageToSendQueue r.2 (clientErrorMsg r.2.clientId
            ot.recipient_id "Client failed to queue file data chunk.")
          (false, { r3.2 with outgoing := none })
      else
        let r4 := addMessageToSendQueue st (clientErrorMsg st.clientId
          ot.recipient_id "Unexpected end of file during transfer.")
        (false, { r4.2 with outgoing := none })
    else (false, st)

/-- C9: If an outbound transfer is already active, any further
`RequestFileTransfer(recipientId, filePath)` call returns false, enqueues no
message, and leaves the existing outbound transfer state (file path, total
size, sent size, recipient id) unchanged. -/
theorem C9_second_request_rejected (env : ClientEnv) (st : ClientState)
    (rid : Int) (path : List Nat) (t : OutgoingFileTransfer)
    (hact : st.outgoing = some t) :
    requestFileTransfer env st rid path = (false, st) := by
  unfold requestFileTransfer
  by_cases hid : st.clientId = -1
  · rw [if_pos hid]
  · rw [if_neg hid, if_pos (by rw [hact]; rfl)]

def envC9 : ClientEnv :=
  { readFile := fun _ => none, openWriteOk := fun _ => true }

def outC9 : OutgoingFileTransfer :=
  { file_path := strBytes "a.bin", total_size := 5, sent_size := 0,
    streamOpen := false, streamPos := 0, recipient_id := 2 }

def stC9 : ClientState :=
  { clientId := 1, socketValid := true, sendQueue := [],
    outgoing := some outC9, incoming := none }

/-- Witness for C9 at a concrete active outbound transfer. -/
theorem C9_second_request_rejected_witness :
    stC9.outgoing = some outC9 ∧
    requestFileTransfer envC9 stC9 3 (strBytes "b.bin") = (false, stC9) :=
  ⟨rfl, C9_second_request_rejected envC9 stC9 3 (strBytes "b.bin") outC9 rfl⟩

/-- C10: `Client::SendChatMessage(text)` returns false and pushes nothing
onto the send queue whenever the client has not yet received an ID
assignment (stored id is -1) or the socket is invalid; otherwise it enqueues
exactly one BROADCAST message whose senderId is the assigned id, whose
recipientId is -1, whose payload is exactly the given text, and whose
payload_size equals the text length, and returns true. -/
theorem C10_sendChatMessage_behavior (st : ClientState) (text : List Nat) :
    ((st.clientId = -1 ∨ st.socketValid = false) →
      sendChatMessage st text = (false, st)) ∧
    (st.clientId ≠ -1 → st.socketValid = true →
      sendChatMessage st text =
        (true, { st with sendQueue := st.sendQueue ++
          [mkMsg MessageType.BROADCAST_MESSAGE st.clientId (-1) text] })) := by
  constructor
  · intro h
    unfold sendChatMessage
    rw [if_pos (Or.symm h)]
  · intro h1 h2
    unfold sendChatMessage
    rw [if_neg (by simp [h1, h2])]

def stC10a : ClientState :=
  { clientId := -1, socketValid := true, sendQueue := [],
    outgoing := none, incoming := none }

def stC10b : ClientState :=
  { clientId := 7, socketValid := true, sendQueue := [],
    outgoing := none, incoming := none }

/-- Witness for C10: rejected before ID assignment, enqueued after. -/
theorem C10_sendChatMessage_behavior_witness :
    (stC10a.clientId = -1 ∨ stC10a.socketValid = false) ∧
    sendChatMessage stC10a [104] = (false, stC10a) ∧
    stC10b.clientId ≠ -1 ∧ stC10b.socketValid = true ∧
    sendChatMessage stC10b [104] =
      (true, { stC10b with sendQueue := stC10b.sendQueue ++
        [mkMsg MessageType.BROADCAST_MESSAGE stC10b.clientId (-1) [104]] }) :=
  ⟨Or.inl rfl,
   (C10_sendChatMessage_behavior stC10a [104]).1 (Or.inl rfl),
   by decide, rfl,
   (C10_sendChatMessage_behavior stC10b [104]).2 (by decide) rfl⟩

/-! ## Claim C1: the READY acknowledgment never starts chunking

`RequestFileTransfer` queues the `TRANSFER_REQUEST` and records the outbound
slot, with its file stream still closed ("File stream will be opened when
the server sends the READY signal").  When the recipient's READY
acknowledgment (a `FILE_TRANSFER_REQUEST` whose payload is the literal text
`READY`) arrives back, `HandleMessage` dispatches it to
`HandleFileTransferRequest`, which parses the payload as a new
`"recipient:file:size"` transfer request; the format check fails on `READY`
(no colon) and the handler returns without touching the outbound slot.  No
code path ever calls `SendNextFileChunkToQueue`, and even calling it
directly would do nothing because the guard requires the (never opened)
file stream to be open. -/

def envC1 : ClientEnv :=
  { readFile := fun p =>
      if p = strBytes "f.bin" then
        some { isRegular := true, size := 5, data := [1, 2, 3, 4, 5] }
      else none,
    openWriteOk := fun _ => true }

def stC1 : ClientState :=
  { clientId := 1, socketValid := true, sendQueue := [],
    outgoing := none, incoming := none }

def reqC1 : Bool × ClientState := requestFileTransfer envC1 stC1 2 (strBytes "f.bin")

/-- The sender's state after the request was queued (and drained by the send
thread) and the outbound slot recorded. -/
def stC1b : ClientState := { reqC1.2 with sendQueue := [] }

def readyC1 : Message := mkMsg MessageType.FILE_TRANSFER_REQUEST 2 1 (strBytes "READY")

/-- The outbound slot `RequestFileTransfer` records: stream not yet open. -/
def outC1 : OutgoingFileTransfer :=
  { file_path := strBytes "f.bin", total_size := 5, sent_size := 0,
    streamOpen := false, streamPos := 0, recipient_id := 2 }

/-- C1 evaluated on the failing input: an outbound transfer recorded by
`RequestFileTransfer` is in place, the recipient's READY acknowledgment is
received — and nothing happens: the handler returns the state unchanged (no
TRANSFER_CHUNK is enqueued, the sent-bytes counter stays 0, the file stream
stays closed), and `SendNextFileChunkToQueue` (which no code calls) would
also refuse to queue anything because the stream was never opened.  The
claimed chunking loop never begins. -/
theorem C1_ready_starts_no_chunking :
    reqC1.1 = true ∧
    stC1b.outgoing = some outC1 ∧
    clientHandleMessage envC1 stC1b readyC1 = stC1b ∧
    sendNextFileChunkToQueue envC1 stC1b = (false, stC1b) :=
  ⟨by decide, by decide, by decide, by decide⟩

/-! ## Server-side FileTransferHandler (`FileTransferHandler.cpp`)

The server handler keeps `std::map<int, IncomingFileTransfer>
incoming_transfers_`, **keyed by the sending connection's id**.  Its effects
are messages handed to client handlers (`sender->SendMessage` and
`GetClientHandler(id)->SendMessage`), modelled as a list of
`(destination client id, message)` pairs in send order.  The registry lookup
`Server::GetClientHandler` and the destination `ofstream` are the
environment. -/

/-- `FileTransferHandler::IncomingFileTransfer`. -/
structure ServerIncomingTransfer where
  file_name : List Nat
  total_size : Nat
  received_size : Nat
  streamOpen : Bool
  sender_id : Int
  recipient_id : Int
deriving DecidableEq, Repr

def mapFind? (m : List (Int × ServerIncomingTransfer)) (k : Int) :
    Option ServerIncomingTransfer :=
  match m with
  | [] => none
  | (k', v) :: r => if k' = k then some v else mapFind? r k

def mapInsert (m : List (Int × ServerIncomingTransfer)) (k : Int)
    (v : ServerIncomingTransfer) : List (Int × ServerIncomingTransfer) :=
  m ++ [(k, v)]

def mapSet (m : List (Int × ServerIncomingTransfer)) (k : Int)
    (v : ServerIncomingTransfer) : List (Int × ServerIncomingTransfer) :=
  m.map (fun p => if p.1 = k then (k, v) else p)

def mapErase (m : List (Int × ServerIncomingTransfer)) (k : Int) :
    List (Int × ServerIncomingTransfer) :=
  m.filter (fun p => p.1 != k)

/-- Environment of the server handler: which client ids
`Server::GetClientHandler` can resolve, and whether opening the destination
file succeeds. -/
structure ServerEnv where
  connected : Int → Bool
  openWriteOk : List Nat → Bool

/-- `FileTransferHandler::SendFileTransferError`: look the recipient up in
the registry; if found, send a `FILE_TRANSFER_ERROR` from the server (-1),
otherwise only log. -/
def sendFileTransferError (env : ServerEnv) (rid : Int) (text : String) :
    List (Int × Message) :=
  if env.connected rid then
    [(rid, mkMsg MessageType.FILE_TRANSFER_ERROR (-1) rid (strBytes text))]
  else []

/-- `FileTransferHandler::HandleFileTransferRequest`; `senderId` is
`sender->GetClientId()`, the id of the connection the message arrived on.
Returns the new transfer map, the sends, and the handler's boolean. -/
def serverHandleFileTransferRequest (env : ServerEnv)
    (st : List (Int × ServerIncomingTransfer)) (senderId : Int) (msg : Message) :
    List (Int × ServerIncomingTransfer) × List (Int × Message) × Bool :=
  if msg.payload.isEmpty then
    (st, sendFileTransferError env senderId "Invalid file transfer request.", true)
  else
    match parseServerRequestPayload msg.payload with
    | .formatErr =>
        (st, sendFileTransferError env senderId "Invalid file transfer request format.", true)
    | .numErr =>
        (st, sendFileTransferError env senderId "Error processing file transfer request.", true)
    | .ok rid fname fsize =>
      if rid = -1 then
        if (mapFind? st senderId).isSome then
          (st, sendFileTransferError env senderId
            "Another transfer is already in progress.", true)
        else
          let uniqueName := strBytes "incoming_files/" ++ strBytes (toString senderId) ++
            strBytes "_" ++ fname
          if env.openWriteOk uniqueName = false then
            (st, sendFileTransferError env senderId
              "Server failed to open file for writing.", true)
          else
            let entry : ServerIncomingTransfer :=
              { file_name := fname, total_size := fsize, received_size := 0,
                streamOpen := true, sender_id := senderId, recipient_id := -1 }
            (mapInsert st senderId entry,
             [(senderId, mkMsg MessageType.FILE_TRANSFER_REQUEST (-1) senderId
               (strBytes "READY"))], true)
      else
        if env.connected rid then (st, [(rid, msg)], true)
        else (st, sendFileTransferError env senderId "Recipient client not found.", true)

/-- `FileTransferHandler::HandleFileDataChunk`. -/
def serverHandleFileDataChunk (env : ServerEnv)
    (st : List (Int × ServerIncomingTransfer)) (senderId : Int) (msg : Message) :
    List (Int × ServerIncomingTransfer) × List (Int × Message) × Bool :=
  if msg.header.recipient_id = -1 then
    match mapFind? st msg.header.sender_id with
    | none =>
        (st, sendFileTransferError env senderId "Received data for unknown transfer.", true)
    | some t =>
      if t.streamOpen = false then
        (mapErase st msg.header.sender_id,
         sendFileTransferError env senderId "Internal server error during transfer.", true)
      else
        let upd := { t with received_size := t.received_size + msg.payload.length }
        (mapSet st msg.header.sender_id upd, [], true)
  else
    if env.connected msg.header.recipient_id then (st, [(msg.header.recipient_id, msg)], true)
    else
      (st, sendFileTransferError env senderId
        "Recipient client disconnected during transfer.", true)

/-- `FileTransferHandler::HandleFileTransferComplete`.  For a transfer to the
server it closes the file, sends the `SUCCESS` acknowledgment and erases the
state — without ever comparing `received_size` with `total_size`; for a
relayed completion whose recipient is gone it only logs (no error reply). -/
def serverHandleFileTransferComplete (env : ServerEnv)
    (st : List (Int × ServerIncomingTransfer)) (senderId : Int) (msg : Message) :
    List (Int × ServerIncomingTransfer) × List (Int × Message) × Bool :=
  if msg.header.recipient_id = -1 then
    match mapFind? st msg.header.sender_id with
    | none =>
        (st, sendFileTransferError env senderId
          "Received completion for unknown transfer.", true)
    | some _t =>
        (mapErase st msg.header.sender_id,
         [(senderId, mkMsg MessageType.FILE_TRANSFER_COMPLETE (-1) senderId
           (strBytes "SUCCESS"))], true)
  else
    if env.connected msg.header.recipient_id then (st, [(msg.header.recipient_id, msg)], true)
    else (st, [], true)

/-- `FileTransferHandler::HandleFileTransferError`. -/
def serverHandleFileTransferError
    (st : List (Int × ServerIncomingTransfer)) (msg : Message) :
    List (Int × ServerIncomingTransfer) × List (Int × Message) × Bool :=
  match mapFind? st msg.header.sender_id with
  | some _ => (mapErase st msg.header.sender_id, [], true)
  | none => (st, [], true)

/-- `FileTransferHandler::HandleMessage`: dispatch on the message type. -/
def serverHandleMessage (env : ServerEnv)
    (st : List (Int × ServerIncomingTransfer)) (senderId : Int) (msg : Message) :
    List (Int × ServerIncomingTransfer) × List (Int × Message) × Bool :=
  if msg.header.type = MessageType.FILE_TRANSFER_REQUEST then
    serverHandleFileTransferRequest env st senderId msg
  else if msg.header.type = MessageType.FILE_DATA_CHUNK then
    serverHandleFileDataChunk env st senderId msg
  else if msg.header.type = MessageType.FILE_TRANSFER_COMPLETE then
    serverHandleFileTransferComplete env st senderId msg
  else if msg.header.type = MessageType.FILE_TRANSFER_ERROR then
    serverHandleFileTransferError st msg
  else (st, [], false)

/-! ## The server cleanup path (`Server::CleanupClients`, `Server::RemoveClient`)

One iteration of the cleanup loop that actually removes a client executes,
in program order (`Server.cpp`):
  1. lock `finished_clients_mutex_` and wait (`CleanupClients`, the
     `unique_lock` + `wait`),
  2. pop one id from `finished_client_ids_` (still under that queue lock),
  3. release the queue lock (end of the scoped block),
  4. `RemoveClient(id)`: `lock_guard<mutex> lock(clients_mutex_)` — acquire
     the registry lock,
  5. `static_cast<ClientHandler *>(it->get())->Stop()` — `Stop` closes the
     socket and **joins** the handler thread,
  6. `clients_.erase(...)` — excise the entry,
  7. release the registry lock (end of `RemoveClient`).
The event list below is that sequence; `registryLockDepth` counts
acquisitions minus releases of `clients_mutex_`, so
`registryLockHeldBefore tr i` says whether the registry lock is held while
event `i` executes. -/

inductive LockEvent where
  | acquireFinishedQueueLock
  | popFinishedId
  | releaseFinishedQueueLock
  | acquireRegistryLock
  | stopAndJoinWorker
  | eraseRegistryEntry
  | releaseRegistryLock
deriving DecidableEq, Repr

/-- Body of `Server::RemoveClient` (lines 223-249 of `Server.cpp`). -/
def removeClientTrace : List LockEvent :=
  [LockEvent.acquireRegistryLock, LockEvent.stopAndJoinWorker,
   LockEvent.eraseRegistryEntry, LockEvent.releaseRegistryLock]

/-- One removing iteration of `Server::CleanupClients` (lines 166-191):
pop an id under the finished-queue lock, then call `RemoveClient`. -/
def cleanupIterationTrace : List LockEvent :=
  [LockEvent.acquireFinishedQueueLock, LockEvent.popFinishedId,
   LockEvent.releaseFinishedQueueLock] ++ removeClientTrace

/-- Number of `clients_mutex_` acquisitions minus releases over a trace. -/
def registryLockDepth (tr : List LockEvent) : Nat :=
  tr.foldl
    (fun d e =>
      match e with
      | LockEvent.acquireRegistryLock => d + 1
      | LockEvent.releaseRegistryLock => d - 1
      | _ => d) 0

/-- Whether the registry lock is held while the trace's `i`-th event runs. -/
def registryLockHeldBefore (tr : List LockEvent) (i : Nat) : Bool :=
  decide (0 < registryLockDepth (tr.take i))

/-- C4 counterexample: in the cleanup iteration the blocking
`Stop`-and-join of the finished worker (event index 4) runs **while the
registry lock is held** — `RemoveClient` takes `clients_mutex_` first and
joins inside it, contradicting the claim that the lock is taken only to
excise the entry after the join. -/
theorem C4_join_under_registry_lock_counterexample :
    cleanupIterationTrace.get? 4 = some LockEvent.stopAndJoinWorker ∧
    registryLockHeldBefore cleanupIterationTrace 4 = true :=
  ⟨by decide, by decide⟩

/-- C4 as amended: the cleanup loop pops the finished id outside the
registry lock, but `RemoveClient` then acquires the registry lock and calls
`Stop` (which joins the worker thread) while holding it, erases the entry
still under the lock, and releases it only afterwards. -/
theorem C4_cleanup_lock_discipline :
    cleanupIterationTrace.get? 1 = some LockEvent.popFinishedId ∧
    registryLockHeldBefore cleanupIterationTrace 1 = false ∧
    cleanupIterationTrace.get? 4 = some LockEvent.stopAndJoinWorker ∧
    registryLockHeldBefore cleanupIterationTrace 4 = true ∧
    cleanupIterationTrace.get? 5 = some LockEvent.eraseRegistryEntry ∧
    registryLockHeldBefore cleanupIterationTrace 5 = true ∧
    registryLockDepth cleanupIterationTrace = 0 :=
  ⟨by decide, by decide, by decide, by decide, by decide, by decide, by decide⟩

/-! ## Claim C5: acceptance condition of a local TRANSFER_REQUEST -/

def envC5 : ServerEnv := { connected := fun _ => true, openWriteOk := fun _ => true }

def entC5 : ServerIncomingTransfer :=
  { file_name := strBytes "a.txt", total_size := 10, received_size := 0,
    streamOpen := true, sender_id := 2, recipient_id := -1 }

def stC5 : List (Int × ServerIncomingTransfer) := [(2, entC5)]

def reqMsgC5 : Message := mkMsg MessageType.FILE_TRANSFER_REQUEST 3 (-1) (strBytes "-1:b.txt:5")

/-- The inbound record the server emplaces on accepting a request. -/
def serverEntryOf (senderId : Int) (fname : List Nat) (fsize : Nat) :
    ServerIncomingTransfer :=
  { file_name := fname, total_size := fsize, received_size := 0,
    streamOpen := true, sender_id := senderId, recipient_id := -1 }

/-- The inbound record the client stores on accepting a request. -/
def clientIncomingOf (senderId : Int) (fname : List Nat) (fsize : Nat) :
    ClientIncomingTransfer :=
  { file_name := fname, total_size := fsize, received_size := 0,
    streamOpen := true, sender_id := senderId }

/-- C5 counterexample: the server's inbound map is keyed by sender, so with
an inbound transfer from peer 2 already active, a `TRANSFER_REQUEST` to the
server from peer 3 is **accepted** — a READY acknowledgment is sent and new
inbound state is created — not rejected with `TRANSFER_ERROR` as the claim
("whenever an inbound transfer from any peer is already active") requires. -/
theorem C5_busy_any_peer_counterexample :
    (mapFind? stC5 2).isSome = true ∧
    serverHandleFileTransferRequest envC5 stC5 3 reqMsgC5 =
      (mapInsert stC5 3 (serverEntryOf 3 (strBytes "b.txt") 5),
       [(3, mkMsg MessageType.FILE_TRANSFER_REQUEST (-1) 3 (strBytes "READY"))], true) :=
  ⟨by decide, by decide⟩

/-- C5 as amended: on the client, a `TRANSFER_REQUEST` addressed to this
connection is rejected (TRANSFER_ERROR to the sender, no state or file
created) whenever any inbound transfer is active, and otherwise accepted
(file created, inbound state recorded, READY sent).  On the server, a
request addressed to the server (id -1) is rejected only when an inbound
transfer **from the same sender** is already active; with only other peers'
inbound transfers active it is accepted (file created, state recorded under
the sender's id, READY sent). -/
theorem C5_local_request_acceptance (env : ServerEnv)
    (sst : List (Int × ServerIncomingTransfer)) (senderId : Int) (smsg : Message)
    (fname : List Nat) (fsize : Nat) (t : ServerIncomingTransfer)
    (cenv : ClientEnv) (cst : ClientState) (cmsg : Message)
    (cfname : List Nat) (cfsize : Nat) (inc : ClientIncomingTransfer) :
    (smsg.payload ≠ [] → parseServerRequestPayload smsg.payload = .ok (-1) fname fsize →
      mapFind? sst senderId = some t →
      serverHandleFileTransferRequest env sst senderId smsg =
        (sst, sendFileTransferError env senderId
          "Another transfer is already in progress.", true)) ∧
    (smsg.payload ≠ [] → parseServerRequestPayload smsg.payload = .ok (-1) fname fsize →
      mapFind? sst senderId = none →
      env.openWriteOk (strBytes "incoming_files/" ++ strBytes (toString senderId) ++
        strBytes "_" ++ fname) = true →
      serverHandleFileTransferRequest env sst senderId smsg =
        (mapInsert sst senderId (serverEntryOf senderId fname fsize),
         [(senderId, mkMsg MessageType.FILE_TRANSFER_REQUEST (-1) senderId
           (strBytes "READY"))], true)) ∧
    (cmsg.header.recipient_id = cst.clientId → cmsg.payload ≠ [] →
      parseClientRequestPayload cmsg.payload = .ok cfname cfsize →
      cst.incoming = some inc →
      clientHandleFileTransferRequest cenv cst cmsg =
        { cst with sendQueue := cst.sendQueue ++ [clientErrorMsg cst.clientId
            cmsg.header.sender_id "Recipient is busy with another transfer."] }) ∧
    (cmsg.header.recipient_id = cst.clientId → cmsg.payload ≠ [] →
      parseClientRequestPayload cmsg.payload = .ok cfname cfsize →
      cst.incoming = none →
      cenv.openWriteOk (strBytes "client_incoming_files/" ++
        strBytes (toString cmsg.header.sender_id) ++ strBytes "_" ++ cfname) = true →
      clientHandleFileTransferRequest cenv cst cmsg =
        { cst with incoming := some (clientIncomingOf cmsg.header.sender_id cfname cfsize),
                   sendQueue := cst.sendQueue ++ [mkMsg MessageType.FILE_TRANSFER_REQUEST
                     cst.clientId cmsg.header.sender_id (strBytes "READY")] }) := by
  refine ⟨?_, ?_, ?_, ?_⟩
  · intro hpe hparse hfind
    simp [serverHandleFileTransferRequest, hpe, hparse, hfind]
  · intro hpe hparse hfind howk
    simp only [List.append_assoc] at howk
    simp [serverHandleFileTransferRequest, hpe, hparse, hfind, howk, serverEntryOf]
  · intro hrec hpe hparse hfind
    simp [clientHandleFileTransferRequest, hrec, hpe, hparse, hfind,
      addMessageToSendQueue]
  · intro hrec hpe hparse hfind howk
    simp only [List.append_assoc] at howk
    simp [clientHandleFileTransferRequest, hrec, hpe, hparse, hfind, howk,
      addMessageToSendQueue, clientIncomingOf]

def envC5c : ClientEnv := { readFile := fun _ => none, openWriteOk := fun _ => true }

def smsgC5 : Message := mkMsg MessageType.FILE_TRANSFER_REQUEST 2 (-1) (strBytes "-1:a.txt:7")

def incC5 : ClientIncomingTransfer := clientIncomingOf 9 (strBytes "x") 1

def cstC5busy : ClientState :=
  { clientId := 3, socketValid := true, sendQueue := [],
    outgoing := none, incoming := some incC5 }

def cstC5free : ClientState :=
  { clientId := 3, socketValid := true, sendQueue := [],
    outgoing := none, incoming := none }

def cmsgC5 : Message := mkMsg MessageType.FILE_TRANSFER_REQUEST 2 3 (strBytes "9:c.txt:4")

/-- Witness for C5's amended statement at concrete server and client states. -/
theorem C5_local_request_acceptance_witness :
    serverHandleFileTransferRequest envC5 stC5 2 smsgC5 =
      (stC5, sendFileTransferError envC5 2 "Another transfer is already in progress.", true) ∧
    serverHandleFileTransferRequest envC5 [] 2 smsgC5 =
      (mapInsert [] 2 (serverEntryOf 2 (strBytes "a.txt") 7),
       [(2, mkMsg MessageType.FILE_TRANSFER_REQUEST (-1) 2 (strBytes "READY"))], true) ∧
    clientHandleFileTransferRequest envC5c cstC5busy cmsgC5 =
      { cstC5busy with sendQueue := cstC5busy.sendQueue ++ [clientErrorMsg 3 2
          "Recipient is busy with another transfer."] } ∧
    clientHandleFileTransferRequest envC5c cstC5free cmsgC5 =
      { cstC5free with incoming := some (clientIncomingOf 2 (strBytes "c.txt") 4),
                       sendQueue := cstC5free.sendQueue ++
                         [mkMsg MessageType.FILE_TRANSFER_REQUEST 3 2 (strBytes "READY")] } :=
  ⟨(C5_local_request_acceptance envC5 stC5 2 smsgC5 (strBytes "a.txt") 7 entC5
      envC5c cstC5busy cmsgC5 (strBytes "c.txt") 4 incC5).1
      (by decide) (by decide) (by decide),
   (C5_local_request_acceptance envC5 [] 2 smsgC5 (strBytes "a.txt") 7 entC5
      envC5c cstC5busy cmsgC5 (strBytes "c.txt") 4 incC5).2.1
      (by decide) (by decide) (by decide) (by decide),
   (C5_local_request_acceptance envC5 stC5 2 smsgC5 (strBytes "a.txt") 7 entC5
      envC5c cstC5busy cmsgC5 (strBytes "c.txt") 4 incC5).2.2.1
      (by decide) (by decide) (by decide) (by decide),
   (C5_local_request_acceptance envC5 stC5 2 smsgC5 (strBytes "a.txt") 7 entC5
      envC5c cstC5free cmsgC5 (strBytes "c.txt") 4 incC5).2.2.2
      (by decide) (by decide) (by decide) (by decide) (by decide)⟩

/-! ## Claim C6: relaying of TRANSFER_* messages for other recipients -/

def envC6 : ServerEnv := { connected := fun i => decide (i = 3), openWriteOk := fun _ => true }

def cmplC6 : Message := mkMsg MessageType.FILE_TRANSFER_COMPLETE 3 5 []

/-- C6 counterexample: a `TRANSFER_COMPLETE` relayed to recipient 5, who is
not registered, while the original sender 3 is registered: the server only
logs — it sends nothing at all, in particular no `TRANSFER_ERROR` back to
the sender, contradicting the claim. -/
theorem C6_complete_unknown_recipient_counterexample :
    envC6.connected 3 = true ∧ envC6.connected 5 = false ∧
    serverHandleFileTransferComplete envC6 [] 3 cmplC6 = ([], [], true) :=
  ⟨by decide, by decide, by decide⟩

/-- C6 as amended: a `TRANSFER_REQUEST` (routed on the recipient id parsed
from its payload) and a `TRANSFER_CHUNK` (routed on the header's
recipientId) that name neither -1 nor the local endpoint are not consumed
locally: forwarded unchanged when the recipient's handler is registered, and
answered with `TRANSFER_ERROR` to the original sender when not.  A
`TRANSFER_COMPLETE` is likewise forwarded unchanged when the recipient is
registered, but when the recipient is not found it is only logged — no
`TRANSFER_ERROR` is sent back. -/
theorem C6_relay_behavior (env : ServerEnv) (st : List (Int × ServerIncomingTransfer))
    (senderId : Int) (msg : Message) (rid : Int) (fname : List Nat) (fsize : Nat) :
    (msg.payload ≠ [] → parseServerRequestPayload msg.payload = .ok rid fname fsize →
      rid ≠ -1 → env.connected rid = true →
      serverHandleFileTransferRequest env st senderId msg = (st, [(rid, msg)], true)) ∧
    (msg.payload ≠ [] → parseServerRequestPayload msg.payload = .ok rid fname fsize →
      rid ≠ -1 → env.connected rid = false →
      serverHandleFileTransferRequest env st senderId msg =
        (st, sendFileTransferError env senderId "Recipient client not found.", true)) ∧
    (msg.header.recipient_id ≠ -1 → env.connected msg.header.recipient_id = true →
      serverHandleFileDataChunk env st senderId msg =
        (st, [(msg.header.recipient_id, msg)], true)) ∧
    (msg.header.recipient_id ≠ -1 → env.connected msg.header.recipient_id = false →
      serverHandleFileDataChunk env st senderId msg =
        (st, sendFileTransferError env senderId
          "Recipient client disconnected during transfer.", true)) ∧
    (msg.header.recipient_id ≠ -1 → env.connected msg.header.recipient_id = true →
      serverHandleFileTransferComplete env st senderId msg =
        (st, [(msg.header.recipient_id, msg)], true)) ∧
    (msg.header.recipient_id ≠ -1 → env.connected msg.header.recipient_id = false →
      serverHandleFileTransferComplete env st senderId msg = (st, [], true)) := by
  refine ⟨?_, ?_, ?_, ?_, ?_, ?_⟩
  · intro hpe hparse hrid hcon
    simp [serverHandleFileTransferRequest, hpe, hparse, hrid, hcon]
  · intro hpe hparse hrid hcon
    simp [serverHandleFileTransferRequest, hpe, hparse, hrid, hcon]
  · intro hrid hcon
    simp [serverHandleFileDataChunk, hrid, hcon]
  · intro hrid hcon
    simp [serverHandleFileDataChunk, hrid, hcon]
  · intro hrid hcon
    simp [serverHandleFileTransferComplete, hrid, hcon]
  · intro hrid hcon
    simp [serverHandleFileTransferComplete, hrid, hcon]

def envC6all : ServerEnv := { connected := fun _ => true, openWriteOk := fun _ => true }

def envC6sender : ServerEnv :=
  { connected := fun i => decide (i = 2), openWriteOk := fun _ => true }

def reqMsgC6 : Message := mkMsg MessageType.FILE_TRANSFER_REQUEST 2 7 (strBytes "7:a.txt:3")

def chunkMsgC6 : Message := mkMsg MessageType.FILE_DATA_CHUNK 2 7 [1, 2]

def cmplMsgC6 : Message := mkMsg MessageType.FILE_TRANSFER_COMPLETE 2 7 []

/-- Witness for C6's amended statement: sender 2, recipient 7, with the
recipient registered (`envC6all`) and unregistered (`envC6sender`). -/
theorem C6_relay_behavior_witness :
    serverHandleFileTransferRequest envC6all [] 2 reqMsgC6 = ([], [(7, reqMsgC6)], true) ∧
    serverHandleFileTransferRequest envC6sender [] 2 reqMsgC6 =
      ([], sendFileTransferError envC6sender 2 "Recipient client not found.", true) ∧
    serverHandleFileDataChunk envC6all [] 2 chunkMsgC6 = ([], [(7, chunkMsgC6)], true) ∧
    serverHandleFileDataChunk envC6sender [] 2 chunkMsgC6 =
      ([], sendFileTransferError envC6sender 2
        "Recipient client disconnected during transfer.", true) ∧
    serverHandleFileTransferComplete envC6all [] 2 cmplMsgC6 = ([], [(7, cmplMsgC6)], true) ∧
    serverHandleFileTransferComplete envC6sender [] 2 cmplMsgC6 = ([], [], true) :=
  ⟨(C6_relay_behavior envC6all [] 2 reqMsgC6 7 (strBytes "a.txt") 3).1
      (by decide) (by decide) (by decide) (by decide),
   (C6_relay_behavior envC6sender [] 2 reqMsgC6 7 (strBytes "a.txt") 3).2.1
      (by decide) (by decide) (by decide) (by decide),
   (C6_relay_behavior envC6all [] 2 chunkMsgC6 7 (strBytes "a.txt") 3).2.2.1
      (by decide) (by decide),
   (C6_relay_behavior envC6sender [] 2 chunkMsgC6 7 (strBytes "a.txt") 3).2.2.2.1
      (by decide) (by decide),
   (C6_relay_behavior envC6all [] 2 cmplMsgC6 7 (strBytes "a.txt") 3).2.2.2.2.1
      (by decide) (by decide),
   (C6_relay_behavior envC6sender [] 2 cmplMsgC6 7 (strBytes "a.txt") 3).2.2.2.2.2
      (by decide) (by decide)⟩

/-! ## Claim C7: TRANSFER_COMPLETE finalization -/

def envC7 : ServerEnv := { connected := fun _ => true, openWriteOk := fun _ => true }

def entC7 : ServerIncomingTransfer :=
  { file_name := strBytes "a.txt", total_size := 10, received_size := 3,
    streamOpen := true, sender_id := 2, recipient_id := -1 }

def stC7 : List (Int × ServerIncomingTransfer) := [(2, entC7)]

def cmplC7 : Message := mkMsg MessageType.FILE_TRANSFER_COMPLETE 2 (-1) []

/-- C7 counterexample: on `TRANSFER_COMPLETE` for an inbound transfer whose
received size (3) differs from the declared total (10), the server handler
performs no size verification at all: it replies with the `SUCCESS`
acknowledgment — not with the `TRANSFER_ERROR` the claim requires — and
clears the state. -/
theorem C7_server_skips_size_check_counterexample :
    entC7.received_size ≠ entC7.total_size ∧
    serverHandleFileTransferComplete envC7 stC7 2 cmplC7 =
      ([], [(2, mkMsg MessageType.FILE_TRANSFER_COMPLETE (-1) 2 (strBytes "SUCCESS"))], true) :=
  ⟨by decide, by decide⟩

/-- C7 as amended: on `TRANSFER_COMPLETE` for an active inbound transfer the
**client** handler closes the file, verifies that received size equals the
declared total, reports a mismatch via a `TRANSFER_ERROR` sent back to the
sender, and clears the inbound state in both the match and mismatch cases;
the **server** handler closes the file and clears the state but performs no
size verification — it unconditionally replies with the `SUCCESS`
acknowledgment, match or mismatch. -/
theorem C7_complete_finalization (env : ServerEnv)
    (sst : List (Int × ServerIncomingTransfer)) (senderId : Int) (msg : Message)
    (t : ServerIncomingTransfer) (cst : ClientState) (cmsg : Message)
    (inc : ClientIncomingTransfer) :
    (cst.incoming = some inc → inc.sender_id = cmsg.header.sender_id →
      inc.received_size ≠ inc.total_size →
      clientHandleFileTransferComplete cst cmsg =
        { cst with incoming := none,
                   sendQueue := cst.sendQueue ++ [clientErrorMsg cst.clientId
                     cmsg.header.sender_id "Received file size mismatch."] }) ∧
    (cst.incoming = some inc → inc.sender_id = cmsg.header.sender_id →
      inc.received_size = inc.total_size →
      clientHandleFileTransferComplete cst cmsg = { cst with incoming := none }) ∧
    (msg.header.recipient_id = -1 → mapFind? sst msg.header.sender_id = some t →
      serverHandleFileTransferComplete env sst senderId msg =
        (mapErase sst msg.header.sender_id,
         [(senderId, mkMsg MessageType.FILE_TRANSFER_COMPLETE (-1) senderId
           (strBytes "SUCCESS"))], true)) := by
  refine ⟨?_, ?_, ?_⟩
  · intro hinc hsender hne
    simp [clientHandleFileTransferComplete, hinc, hsender, hne, addMessageToSendQueue]
  · intro hinc hsender heq
    simp [clientHandleFileTransferComplete, hinc, hsender, heq]
  · intro hrec hfind
    simp [serverHandleFileTransferComplete, hrec, hfind]

def incC7 : ClientIncomingTransfer :=
  { file_name := strBytes "d.txt", total_size := 6, received_size := 4,
    streamOpen := true, sender_id := 2 }

def incC7ok : ClientIncomingTransfer :=
  { file_name := strBytes "d.txt", total_size := 6, received_size := 6,
    streamOpen := true, sender_id := 2 }

def cstC7 : ClientState :=
  { clientId := 3, socketValid := true, sendQueue := [],
    outgoing := none, incoming := some incC7 }

def cstC7ok : ClientState :=
  { clientId := 3, socketValid := true, sendQueue := [],
    outgoing := none, incoming := some incC7ok }

def cmsgC7 : Message := mkMsg MessageType.FILE_TRANSFER_COMPLETE 2 3 []

/-- Witness for C7's amended statement: a mismatched (4 of 6 bytes) and a
matching client completion, and a server completion. -/
theorem C7_complete_finalization_witness :
    clientHandleFileTransferComplete cstC7 cmsgC7 =
      { cstC7 with incoming := none,
                   sendQueue := [clientErrorMsg 3 2 "Received file size mismatch."] } ∧
    clientHandleFileTransferComplete cstC7ok cmsgC7 = { cstC7ok with incoming := none } ∧
    serverHandleFileTransferComplete envC7 stC7 2 cmplC7 =
      (mapErase stC7 2,
       [(2, mkMsg MessageType.FILE_TRANSFER_COMPLETE (-1) 2 (strBytes "SUCCESS"))], true) :=
  ⟨(C7_complete_finalization envC7 stC7 2 cmplC7 entC7 cstC7 cmsgC7 incC7).1
      rfl (by decide) (by decide),
   (C7_complete_finalization envC7 stC7 2 cmplC7 entC7 cstC7ok cmsgC7 incC7ok).2.1
      rfl (by decide) (by decide),
   (C7_complete_finalization envC7 stC7 2 cmplC7 entC7 cstC7 cmsgC7 incC7).2.2
      (by decide) (by decide)⟩
